import Mathlib

/-!
Shallow embedding of `app.py`, a Flask/Twilio interactive voice response
(IVR) state machine, together with proofs of the specified properties.

The Python program keeps a per-call session with a single field
`ivr_state`, a table `IVR` mapping state names to a pair
`(enter_handler, exit_handler)`, an entry loop `enter_state` that follows
automatic string transitions (`while True` with a late return), an exit
dispatcher `exit_state`, and a webhook `ivr_webhook` that enters the
`greeting` state on a fresh session and otherwise exits the stored state.

Modelling choices, all taken from the source:
* TwiML verbs (`Say`, `Gather`, `Record`, `Enqueue`, `Dial`, and the
  nested `pause`) become the inductive `Verb`; a `Gather` carries its
  keyword arguments and the list of nested verbs appended to it.
* An enter handler returns either a single verb or a Python list of
  verbs; `EnterResult` keeps that distinction, and `EnterResult.actions`
  is the `isinstance(actions, list)` append loop of `enter_state`.
* An exit handler is Python `None`, a `str` naming the next state, or a
  function; `ExitHandler` is that three-way runtime distinction.  The
  function case is defunctionalized to the pure digit-to-state resolver
  it applies before delegating to `enter_state` (`exit_menu` and
  `exit_hours` are literally `enter_state` of the resolved name).
* `request.form.get('Digits')` is an `Option String` argument: `none`
  when the field is absent, `some d` otherwise.
* The unbounded `while True` loop of `enter_state` is indexed by fuel:
  `EngineError.stillRunning` means the loop has not exited within the
  given number of iterations, so divergence of the Python loop is the
  statement that every fuel bound yields `stillRunning`.
* A failed dictionary lookup is `EngineError.keyError`, and the
  `TypeError` Python raises when `exit_state` calls a `None` or string
  exit handler is `EngineError.typeError`.
-/

namespace BasicIvr

/-- TwiML verbs used by `app.py`: `Say`, `Gather` (with its
`action_on_empty_result` and `num_digits` arguments and nested verbs),
`Record`, `Enqueue`, `Dial`, and the `pause` nested inside a gather. -/
inductive Verb where
  | say (text : String)
  | gather (actionOnEmptyResult : Bool) (numDigits : Nat) (nested : List Verb)
  | record
  | enqueue (queueName : String)
  | dial (number : String)
  | pause

/-- Result of an enter handler: the Python functions return either a
single TwiML verb or a list of verbs. -/
inductive EnterResult where
  | single (v : Verb)
  | many (vs : List Verb)

/-- Verbs appended to the response for one enter-handler result; this is
the `isinstance(actions, list)` branch of `enter_state`. -/
def EnterResult.actions : EnterResult → List Verb
  | .single v => [v]
  | .many vs => vs

/-- Exit handler of a state, the second tuple component in the `IVR`
dictionary: Python `None` (terminal state), a `str` naming the next
state (automatic transition), or a function reading the caller digits
(kept here as its pure digit-to-state resolver). -/
inductive ExitHandler where
  | terminal
  | chain (next : String)
  | fn (resolve : Option String → String)

/-- Ways a webhook turn can fail to produce a response in the model:
`keyError s` is a failed `IVR[s]` dictionary lookup, `typeError` is the
`TypeError` raised when `exit_state` calls a `None` or `str` exit
handler, and `stillRunning` records that the `while True` loop of
`enter_state` has not exited within the given fuel bound. -/
inductive EngineError where
  | keyError (state : String)
  | typeError
  | stillRunning
deriving DecidableEq

/-- Per-call Flask session: the program stores exactly one key,
`session['ivr_state']`, absent before the first turn. -/
structure Session where
  ivr_state : Option String

/-- Python `enter_greeting`. -/
def enter_greeting : EnterResult :=
  .single (.say "Welcome to ACME, Inc.")

/-- Python `enter_menu`: a `Gather(action_on_empty_result=True,
num_digits=1)` with the menu prompt said inside it. -/
def enter_menu : EnterResult :=
  .single (.gather true 1
    [.say "Listen to the following menu options. For sales, press one. For support, press two. For our business hours, press three. To repeat these options, press nine. To speak with the receptionist, press zero."])

/-- Python `enter_sales`. -/
def enter_sales : EnterResult :=
  .many
    [.say "All our sales representatives are currently busy, please leave us a message and we will return your call as soon as possible.",
     .record]

/-- Python `enter_support`. -/
def enter_support : EnterResult :=
  .many
    [.say "You are being transferred to the support line. A representative will be with you shortly.",
     .enqueue "support"]

/-- Python `enter_hours`. -/
def enter_hours : EnterResult :=
  .single (.gather true 1
    [.say "We are open Mondays through Fridays from 9 AM to 6 PM.",
     .pause,
     .say "Press 1 to repeat this message or any other key to go back to the menu."])

/-- Python `enter_reception`. -/
def enter_reception : EnterResult :=
  .single (.dial "+19715701777")

/-- Python `enter_error`. -/
def enter_error : EnterResult :=
  .single (.say "The option that you selected is invalid.")

/-- The `transitions` dictionary of `exit_menu`. -/
def menu_transitions : List (String × String) :=
  [("1", "sales"), ("2", "support"), ("3", "hours"), ("9", "menu"), ("0", "reception")]

/-- State resolved by `exit_menu` for given digits: the dictionary value
when `selection in transitions`, the `error` state otherwise (including
an absent `Digits` field). -/
def menu_resolve (digits : Option String) : String :=
  match digits.bind (fun d => menu_transitions.lookup d) with
  | some target => target
  | none => "error"

/-- State resolved by `exit_hours` for given digits: `hours` when the
selection equals `'1'`, `menu` otherwise. -/
def hours_resolve (digits : Option String) : String :=
  if digits = some "1" then "hours" else "menu"

/-- The `IVR` dictionary of `app.py`: each state name maps to its enter
handler and exit handler. -/
def IVR : List (String × (EnterResult × ExitHandler)) :=
  [("greeting", (enter_greeting, .chain "menu")),
   ("menu", (enter_menu, .fn menu_resolve)),
   ("sales", (enter_sales, .terminal)),
   ("support", (enter_support, .terminal)),
   ("hours", (enter_hours, .fn hours_resolve)),
   ("reception", (enter_reception, .terminal)),
   ("error", (enter_error, .chain "menu")),
  ]

/-- Python `enter_state`, generalized over the state table so that the
chain-depth behaviour can also be examined on synthetic tables.  One
fuel unit is one iteration of the `while True` loop: the iteration
stores the state into the session, appends the enter handler's verbs to
the response, then either follows a string exit handler or returns. -/
def enter_state_in (table : List (String × (EnterResult × ExitHandler))) :
    Nat → String → Session → Except EngineError (List Verb × Session)
  | 0, _, _ => .error .stillRunning
  | fuel + 1, state, _sess =>
    match table.lookup state with
    | Option.none => .error (.keyError state)
    | some (enterHandler, exitHandler) =>
      let sess' : Session := ⟨some state⟩
      let actions := enterHandler.actions
      match exitHandler with
      | .chain next =>
        match enter_state_in table fuel next sess' with
        | .ok (rest, finalSess) => .ok (actions ++ rest, finalSess)
        | .error e => .error e
      | _ => .ok (actions, sess')

/-- Python `enter_state` on the program's own `IVR` table. -/
def enter_state (fuel : Nat) (state : String) (sess : Session) :
    Except EngineError (List Verb × Session) :=
  enter_state_in IVR fuel state sess

/-- Python `exit_menu`: looks the caller's digits up in `transitions`
and enters the mapped state, or the `error` state when the digits are
not a key of the dictionary. -/
def exit_menu (fuel : Nat) (digits : Option String) (sess : Session) :
    Except EngineError (List Verb × Session) :=
  match digits.bind (fun d => menu_transitions.lookup d) with
  | some target => enter_state fuel target sess
  | none => enter_state fuel "error" sess

/-- Python `exit_hours`: re-enters `hours` when the selection is `'1'`,
otherwise returns to `menu`. -/
def exit_hours (fuel : Nat) (digits : Option String) (sess : Session) :
    Except EngineError (List Verb × Session) :=
  if digits = some "1" then enter_state fuel "hours" sess
  else enter_state fuel "menu" sess

/-- Python `exit_state`: looks the state up in `IVR` and calls its exit
handler.  Calling a `None` or `str` handler raises `TypeError` in
Python; a function handler resolves the digits and delegates to
`enter_state`. -/
def exit_state (fuel : Nat) (state : String) (digits : Option String) (sess : Session) :
    Except EngineError (List Verb × Session) :=
  match IVR.lookup state with
  | Option.none => .error (.keyError state)
  | some (_, exitHandler) =>
    match exitHandler with
    | .fn resolve => enter_state fuel (resolve digits) sess
    | _ => .error .typeError

/-- Python `ivr_webhook`: a session with no stored `ivr_state` is a new
call and enters `greeting`; otherwise the stored state is exited with
the caller's digits. -/
def ivr_webhook (fuel : Nat) (digits : Option String) (sess : Session) :
    Except EngineError (List Verb × Session) :=
  match sess.ivr_state with
  | Option.none => enter_state fuel "greeting" sess
  | some state => exit_state fuel state digits sess

/-- Synthetic state table with a cyclic pair of automatic transitions
(state `A` chains to `B` and `B` back to `A`), used to examine the
chain-depth behaviour of `enter_state`. -/
def cyclicTable : List (String × (EnterResult × ExitHandler)) :=
  [("A", (.single (.say "in A"), .chain "B")),
   ("B", (.single (.say "in B"), .chain "A"))]

/-- List of the keys of the `IVR` table. -/
def IVR_keys : List String :=
  ["greeting", "menu", "sales", "support", "hours", "reception", "error"]

/-! Evaluation lemmas: one unfolding of the entry loop per state of the
program's table, for an arbitrary remaining fuel. -/

/-- Entering `menu` returns after one loop iteration with the menu
gather and the session stored at `menu`. -/
theorem enter_state_menu (m : Nat) (sess : Session) :
    enter_state (m + 1) "menu" sess = .ok (enter_menu.actions, ⟨some "menu"⟩) := rfl

/-- Entering `sales` returns after one loop iteration. -/
theorem enter_state_sales (m : Nat) (sess : Session) :
    enter_state (m + 1) "sales" sess = .ok (enter_sales.actions, ⟨some "sales"⟩) := rfl

/-- Entering `support` returns after one loop iteration. -/
theorem enter_state_support (m : Nat) (sess : Session) :
    enter_state (m + 1) "support" sess = .ok (enter_support.actions, ⟨some "support"⟩) := rfl

/-- Entering `hours` returns after one loop iteration. -/
theorem enter_state_hours (m : Nat) (sess : Session) :
    enter_state (m + 1) "hours" sess = .ok (enter_hours.actions, ⟨some "hours"⟩) := rfl

/-- Entering `reception` returns after one loop iteration. -/
theorem enter_state_reception (m : Nat) (sess : Session) :
    enter_state (m + 1) "reception" sess = .ok (enter_reception.actions, ⟨some "reception"⟩) := rfl

/-- Entering `greeting` chains through to `menu`: the greeting verbs are
followed by the menu verbs and the session ends stored at `menu`. -/
theorem enter_state_greeting (m : Nat) (sess : Session) :
    enter_state (m + 2) "greeting" sess
      = .ok (enter_greeting.actions ++ enter_menu.actions, ⟨some "menu"⟩) := rfl

/-- Entering `error` chains through to `menu`: the invalid-option verb
is followed by the menu verbs and the session ends stored at `menu`. -/
theorem enter_state_error (m : Nat) (sess : Session) :
    enter_state (m + 2) "error" sess
      = .ok (enter_error.actions ++ enter_menu.actions, ⟨some "menu"⟩) := rfl

/-- Entering any state of the table with at least two remaining loop
iterations succeeds. -/
theorem enter_state_ok_of_key (m : Nat) (t : String) (sess : Session)
    (h : t ∈ IVR_keys) : (enter_state (m + 2) t sess).isOk = true := by
  simp only [IVR_keys, List.mem_cons, List.not_mem_nil, or_false] at h
  rcases h with h | h | h | h | h | h | h <;> subst h
  · rw [enter_state_greeting m sess]; rfl
  · rw [show m + 2 = (m + 1) + 1 from rfl, enter_state_menu (m + 1) sess]; rfl
  · rw [show m + 2 = (m + 1) + 1 from rfl, enter_state_sales (m + 1) sess]; rfl
  · rw [show m + 2 = (m + 1) + 1 from rfl, enter_state_support (m + 1) sess]; rfl
  · rw [show m + 2 = (m + 1) + 1 from rfl, enter_state_hours (m + 1) sess]; rfl
  · rw [show m + 2 = (m + 1) + 1 from rfl, enter_state_reception (m + 1) sess]; rfl
  · rw [enter_state_error m sess]; rfl

/-- On the cyclic synthetic table, the entry loop never exits: whatever
fuel bound is allowed, starting from `A` or `B` the loop is still
running when the bound is reached. -/
theorem cyclic_still_running :
    ∀ (fuel : Nat) (s : String), (s = "A" ∨ s = "B") → ∀ sess : Session,
      enter_state_in cyclicTable fuel s sess = .error .stillRunning := by
  intro fuel
  induction fuel with
  | zero => intro s _ sess; rfl
  | succ n ih =>
    intro s hs sess
    rcases hs with h | h <;> subst h
    · have h2 := ih "B" (Or.inr rfl) ⟨some "A"⟩
      simp only [cyclicTable] at h2 ⊢
      simp [enter_state_in, List.lookup, h2]
    · have h2 := ih "A" (Or.inl rfl) ⟨some "B"⟩
      simp only [cyclicTable] at h2 ⊢
      simp [enter_state_in, List.lookup, h2]

/-- Case analysis on a successful lookup in the `IVR` table: the key is
one of the seven state names and the value is the corresponding entry. -/
theorem IVR_lookup_cases (s : String) (df : EnterResult × ExitHandler)
    (h : IVR.lookup s = some df) :
    (s = "greeting" ∧ df = (enter_greeting, .chain "menu")) ∨
    (s = "menu" ∧ df = (enter_menu, .fn menu_resolve)) ∨
    (s = "sales" ∧ df = (enter_sales, .terminal)) ∨
    (s = "support" ∧ df = (enter_support, .terminal)) ∨
    (s = "hours" ∧ df = (enter_hours, .fn hours_resolve)) ∨
    (s = "reception" ∧ df = (enter_reception, .terminal)) ∨
    (s = "error" ∧ df = (enter_error, .chain "menu")) := by
  simp only [IVR, List.lookup] at h
  repeat' split at h
  all_goals simp_all [beq_iff_eq]

/-- The resolver of `exit_menu`, written out as the case split of the
specification: digits 1, 2, 3, 9, 0 map to sales, support, hours, menu,
reception, and everything else to the error state. -/
theorem menu_resolve_eq (d : Option String) :
    menu_resolve d =
      if d = some "1" then "sales"
      else if d = some "2" then "support"
      else if d = some "3" then "hours"
      else if d = some "9" then "menu"
      else if d = some "0" then "reception"
      else "error" := by
  cases d with
  | none => rfl
  | some s =>
    simp only [menu_resolve, menu_transitions, Option.bind, List.lookup]
    cases h1 : s == "1" <;> cases h2 : s == "2" <;> cases h3 : s == "3" <;>
      cases h9 : s == "9" <;> cases h0 : s == "0" <;>
      simp_all [beq_iff_eq, beq_eq_false_iff_ne]

/-- Every state the menu resolver can produce is a key of the table. -/
theorem menu_resolve_mem (d : Option String) : menu_resolve d ∈ IVR_keys := by
  rw [menu_resolve_eq]
  repeat' split
  all_goals simp [IVR_keys]

/-- Every state the hours resolver can produce is a key of the table. -/
theorem hours_resolve_mem (d : Option String) : hours_resolve d ∈ IVR_keys := by
  rw [hours_resolve]
  split
  all_goals simp [IVR_keys]

/-- Looking up any listed key of the table succeeds. -/
theorem IVR_lookup_key_isSome (t : String) (h : t ∈ IVR_keys) :
    (IVR.lookup t).isSome = true := by
  simp only [IVR_keys, List.mem_cons, List.not_mem_nil, or_false] at h
  rcases h with h | h | h | h | h | h | h <;> subst h <;> rfl

/-- Packaging of the yield-point invariant conclusion, shared by the
branches of its proof. -/
theorem yield_props (st : String) (en : EnterResult) (ex : ExitHandler) (final : Session)
    (hf : final = ⟨some st⟩) (hlk : IVR.lookup st = some (en, ex))
    (hnc : ∀ next, ex ≠ ExitHandler.chain next)
    (h1 : st ≠ "greeting") (h2 : st ≠ "error") :
    ∃ st' en' ex', final.ivr_state = some st' ∧ IVR.lookup st' = some (en', ex') ∧
      (∀ next, ex' ≠ ExitHandler.chain next) ∧ st' ≠ "greeting" ∧ st' ≠ "error" :=
  ⟨st, en, ex, by rw [hf], hlk, hnc, h1, h2⟩

/-! Claim theorems. -/

/-- C1 counterexample: on a synthetic table with the automatic cycle
A to B to A, `enter_state` does not fail with an internal error after a
bounded chain depth.  At the suggested bound of table size plus one
(three iterations), and well beyond it, the entry loop is still
running; no error of any kind has been signaled. -/
theorem c1_counterexample :
    enter_state_in cyclicTable 3 "A" ⟨Option.none⟩ = .error .stillRunning ∧
    enter_state_in cyclicTable 50 "A" ⟨Option.none⟩ = .error .stillRunning :=
  ⟨rfl, rfl⟩

/-- C1 (amended): on a state table whose states form a cycle of
automatic string transitions, `enter_state` loops forever: for every
iteration bound the `while True` loop is still running, and in
particular no internal error is ever signaled. -/
theorem c1_cyclic_chain_diverges (fuel : Nat) (sess : Session) :
    enter_state_in cyclicTable fuel "A" sess = .error .stillRunning :=
  cyclic_still_running fuel "A" (Or.inl rfl) sess

/-- C2: for a state of the table whose exit handler is not a function
(the terminal and automatic-transition states), `exit_state` fails with
the error raised by calling a non-callable handler; when the handler is
a function, `exit_state` delegates to `enter_state` of the state the
resolver picks for the caller digits, and with enough fuel that entry
succeeds. -/
theorem c2_exit_state_input_driven_only (s : String) (en : EnterResult) (ex : ExitHandler)
    (h : IVR.lookup s = some (en, ex)) (fuel : Nat) (d : Option String) (sess : Session) :
    ((∀ r, ex ≠ ExitHandler.fn r) → exit_state fuel s d sess = .error .typeError) ∧
    (∀ r, ex = ExitHandler.fn r →
      exit_state (fuel + 2) s d sess = enter_state (fuel + 2) (r d) sess ∧
      (exit_state (fuel + 2) s d sess).isOk = true) := by
  constructor
  · intro hnf
    unfold exit_state
    rw [h]
    cases ex with
    | terminal => rfl
    | chain next => rfl
    | fn r => exact absurd rfl (hnf r)
  · intro r hr
    subst hr
    have hd : exit_state (fuel + 2) s d sess = enter_state (fuel + 2) (r d) sess := by
      unfold exit_state
      rw [h]
    refine ⟨hd, ?_⟩
    rw [hd]
    rcases IVR_lookup_cases s (en, .fn r) h with h1 | h1 | h1 | h1 | h1 | h1 | h1 <;>
      simp only [Prod.mk.injEq, ExitHandler.fn.injEq] at h1
    · exact absurd h1.2.2 (fun c => ExitHandler.noConfusion c)
    · obtain ⟨-, -, hr⟩ := h1
      subst hr
      exact enter_state_ok_of_key fuel (menu_resolve d) sess (menu_resolve_mem d)
    · exact absurd h1.2.2 (fun c => ExitHandler.noConfusion c)
    · exact absurd h1.2.2 (fun c => ExitHandler.noConfusion c)
    · obtain ⟨-, -, hr⟩ := h1
      subst hr
      exact enter_state_ok_of_key fuel (hours_resolve d) sess (hours_resolve_mem d)
    · exact absurd h1.2.2 (fun c => ExitHandler.noConfusion c)
    · exact absurd h1.2.2 (fun c => ExitHandler.noConfusion c)

/-- C2 witness: at the concrete states `menu` (input-driven, succeeds
and delegates) and `sales` (terminal, the exit call fails). -/
theorem c2_witness :
    (exit_state 2 "menu" (some "1") ⟨Option.none⟩
        = enter_state 2 (menu_resolve (some "1")) ⟨Option.none⟩ ∧
      (exit_state 2 "menu" (some "1") ⟨Option.none⟩).isOk = true) ∧
    exit_state 5 "sales" Option.none ⟨Option.none⟩ = .error .typeError :=
  ⟨(c2_exit_state_input_driven_only "menu" enter_menu (.fn menu_resolve) rfl 0
      (some "1") ⟨Option.none⟩).2 menu_resolve rfl,
   (c2_exit_state_input_driven_only "sales" enter_sales .terminal rfl 5
      Option.none ⟨Option.none⟩).1 (fun _ c => ExitHandler.noConfusion c)⟩

/-- C3: a webhook turn on a session with no stored state enters the
greeting state, and the turn ends with the session stored at `menu`,
the first yield-point state reached through the automatic chain, not at
`greeting`. -/
theorem c3_new_call_lands_on_menu (m : Nat) (d : Option String) (sess : Session)
    (h : sess.ivr_state = Option.none) :
    ivr_webhook (m + 2) d sess = enter_state (m + 2) "greeting" sess ∧
    ivr_webhook (m + 2) d sess
      = .ok (enter_greeting.actions ++ enter_menu.actions, ⟨some "menu"⟩) := by
  have hw : ivr_webhook (m + 2) d sess = enter_state (m + 2) "greeting" sess := by
    unfold ivr_webhook
    rw [h]
  exact ⟨hw, by rw [hw, enter_state_greeting]⟩

/-- C3 witness: a fresh session with absent digits. -/
theorem c3_witness :
    ivr_webhook 2 Option.none ⟨Option.none⟩
      = .ok (enter_greeting.actions ++ enter_menu.actions, ⟨some "menu"⟩) :=
  (c3_new_call_lands_on_menu 0 Option.none ⟨Option.none⟩ rfl).2

/-- C4: the menu resolver is total on caller inputs: digits 1, 2, 3, 9
and 0 resolve to sales, support, hours, menu and reception, and every
other input, including the empty string and an absent `Digits` field,
resolves to the error state. -/
theorem c4_menu_resolver_total (d : Option String) :
    menu_resolve d =
      if d = some "1" then "sales"
      else if d = some "2" then "support"
      else if d = some "3" then "hours"
      else if d = some "9" then "menu"
      else if d = some "0" then "reception"
      else "error" :=
  menu_resolve_eq d

/-- C5: entering `greeting` always succeeds with an action list whose
first element is the greeting Say and whose last element is the menu
digit-collecting Gather, the actions of the chained states concatenated
in entry order. -/
theorem c5_greeting_actions_shape (m : Nat) (sess : Session) :
    ∃ (acts : List Verb) (final : Session),
      enter_state (m + 2) "greeting" sess = .ok (acts, final) ∧
      acts.head? = some (Verb.say "Welcome to ACME, Inc.") ∧
      acts.getLast? = some (Verb.gather true 1
        [Verb.say "Listen to the following menu options. For sales, press one. For support, press two. For our business hours, press three. To repeat these options, press nine. To speak with the receptionist, press zero."]) :=
  ⟨_, _, enter_state_greeting m sess, rfl, rfl⟩

/-- C6: entering `error` always yields exactly the invalid-option Say
followed by the full entry actions of `menu`, the automatic chain from
`error` back to `menu` in the same turn. -/
theorem c6_error_actions_shape (m : Nat) (sess : Session) :
    enter_state (m + 2) "error" sess
      = .ok ([Verb.say "The option that you selected is invalid."] ++ enter_menu.actions,
          ⟨some "menu"⟩) :=
  enter_state_error m sess

/-- C7: the hours resolver sends digit 1, and only digit 1, back to
`hours` (repeating the hours prompt), and every other input, including
an absent one, to `menu`. -/
theorem c7_hours_resolver (m : Nat) (d : Option String) (sess : Session) :
    (hours_resolve d = "hours" ↔ d = some "1") ∧
    (d = some "1" → exit_hours (m + 1) d sess = .ok (enter_hours.actions, ⟨some "hours"⟩)) ∧
    (d ≠ some "1" → hours_resolve d = "menu" ∧
      exit_hours (m + 1) d sess = .ok (enter_menu.actions, ⟨some "menu"⟩)) := by
  refine ⟨?_, ?_, ?_⟩
  · unfold hours_resolve
    split
    · simp_all
    · simp_all
  · intro h
    unfold exit_hours
    rw [if_pos h]
    exact enter_state_hours m sess
  · intro h
    refine ⟨?_, ?_⟩
    · unfold hours_resolve
      rw [if_neg h]
    · unfold exit_hours
      rw [if_neg h]
      exact enter_state_menu m sess

/-- C7 witness: digit 1 repeats the hours prompt; digit 5 and an absent
input return to the menu. -/
theorem c7_witness :
    exit_hours 1 (some "1") ⟨Option.none⟩ = .ok (enter_hours.actions, ⟨some "hours"⟩) ∧
    exit_hours 1 (some "5") ⟨Option.none⟩ = .ok (enter_menu.actions, ⟨some "menu"⟩) ∧
    exit_hours 1 Option.none ⟨Option.none⟩ = .ok (enter_menu.actions, ⟨some "menu"⟩) :=
  ⟨(c7_hours_resolver 0 (some "1") ⟨Option.none⟩).2.1 rfl,
   ((c7_hours_resolver 0 (some "5") ⟨Option.none⟩).2.2 (by decide)).2,
   ((c7_hours_resolver 0 Option.none ⟨Option.none⟩).2.2 (by decide)).2⟩

/-- C8: the terminal states return from the entry loop immediately: for
each of `sales`, `support` and `reception`, and any remaining fuel, the
result is exactly the one entry handler's actions with nothing of any
other state appended, and the session stored at that state. -/
theorem c8_terminal_states_return_immediately (m : Nat) (sess : Session) :
    enter_state (m + 1) "sales" sess = .ok (enter_sales.actions, ⟨some "sales"⟩) ∧
    enter_state (m + 1) "support" sess = .ok (enter_support.actions, ⟨some "support"⟩) ∧
    enter_state (m + 1) "reception" sess = .ok (enter_reception.actions, ⟨some "reception"⟩) :=
  ⟨enter_state_sales m sess, enter_state_support m sess, enter_state_reception m sess⟩

/-- C9: whenever the entry loop returns, the state left stored in the
session is a key of the table whose exit handler is not an automatic
string transition (so it is terminal or input-driven); in particular
the stored state is never `greeting` and never `error`. -/
theorem c9_yield_state_not_autochain (fuel : Nat) (s : String) (sess : Session)
    (acts : List Verb) (final : Session)
    (h : enter_state fuel s sess = .ok (acts, final)) :
    ∃ st en ex, final.ivr_state = some st ∧ IVR.lookup st = some (en, ex) ∧
      (∀ next, ex ≠ ExitHandler.chain next) ∧ st ≠ "greeting" ∧ st ≠ "error" := by
  cases fuel with
  | zero => simp [enter_state, enter_state_in] at h
  | succ n =>
    cases hlk : IVR.lookup s with
    | none =>
      simp [enter_state, enter_state_in, hlk] at h
    | some df =>
      obtain ⟨en', ex'⟩ := df
      rcases IVR_lookup_cases s (en', ex') hlk with h1 | h1 | h1 | h1 | h1 | h1 | h1 <;>
        obtain ⟨hs, hdf⟩ := h1 <;> subst hs <;>
        rw [Prod.mk.injEq] at hdf <;> obtain ⟨he, hx⟩ := hdf <;> subst he <;> subst hx
      · cases n with
        | zero =>
          rw [show enter_state 1 "greeting" sess = .error .stillRunning from rfl] at h
          exact absurd h (by simp)
        | succ k =>
          rw [enter_state_greeting k sess, Except.ok.injEq, Prod.mk.injEq] at h
          exact yield_props "menu" enter_menu (.fn menu_resolve) final h.2.symm rfl
            (fun _ c => ExitHandler.noConfusion c) (by decide) (by decide)
      · rw [enter_state_menu n sess, Except.ok.injEq, Prod.mk.injEq] at h
        exact yield_props "menu" enter_menu (.fn menu_resolve) final h.2.symm rfl
          (fun _ c => ExitHandler.noConfusion c) (by decide) (by decide)
      · rw [enter_state_sales n sess, Except.ok.injEq, Prod.mk.injEq] at h
        exact yield_props "sales" enter_sales .terminal final h.2.symm rfl
          (fun _ c => ExitHandler.noConfusion c) (by decide) (by decide)
      · rw [enter_state_support n sess, Except.ok.injEq, Prod.mk.injEq] at h
        exact yield_props "support" enter_support .terminal final h.2.symm rfl
          (fun _ c => ExitHandler.noConfusion c) (by decide) (by decide)
      · rw [enter_state_hours n sess, Except.ok.injEq, Prod.mk.injEq] at h
        exact yield_props "hours" enter_hours (.fn hours_resolve) final h.2.symm rfl
          (fun _ c => ExitHandler.noConfusion c) (by decide) (by decide)
      · rw [enter_state_reception n sess, Except.ok.injEq, Prod.mk.injEq] at h
        exact yield_props "reception" enter_reception .terminal final h.2.symm rfl
          (fun _ c => ExitHandler.noConfusion c) (by decide) (by decide)
      · cases n with
        | zero =>
          rw [show enter_state 1 "error" sess = .error .stillRunning from rfl] at h
          exact absurd h (by simp)
        | succ k =>
          rw [enter_state_error k sess, Except.ok.injEq, Prod.mk.injEq] at h
          exact yield_props "menu" enter_menu (.fn menu_resolve) final h.2.symm rfl
            (fun _ c => ExitHandler.noConfusion c) (by decide) (by decide)

/-- C9 witness: concrete run entering `menu`. -/
theorem c9_witness :
    ∃ st en ex, (⟨some "menu"⟩ : Session).ivr_state = some st ∧
      IVR.lookup st = some (en, ex) ∧
      (∀ next, ex ≠ ExitHandler.chain next) ∧ st ≠ "greeting" ∧ st ≠ "error" :=
  c9_yield_state_not_autochain 1 "menu" ⟨Option.none⟩ enter_menu.actions ⟨some "menu"⟩ rfl

/-- C10: closure of the state table: the initial state, every automatic
transition target, and every possible output of the menu and hours
resolvers is a key of the table, so every lookup the engine performs
succeeds. -/
theorem c10_table_closure :
    (IVR.lookup "greeting").isSome = true ∧
    (∀ s en next, IVR.lookup s = some (en, ExitHandler.chain next) →
      (IVR.lookup next).isSome = true) ∧
    (∀ d, (IVR.lookup (menu_resolve d)).isSome = true) ∧
    (∀ d, (IVR.lookup (hours_resolve d)).isSome = true) := by
  refine ⟨rfl, ?_, ?_, ?_⟩
  · intro s en next h
    rcases IVR_lookup_cases s (en, .chain next) h with h1 | h1 | h1 | h1 | h1 | h1 | h1 <;>
      simp only [Prod.mk.injEq, ExitHandler.chain.injEq] at h1
    · obtain ⟨-, -, hn⟩ := h1
      subst hn
      rfl
    · exact absurd h1.2.2 (fun c => ExitHandler.noConfusion c)
    · exact absurd h1.2.2 (fun c => ExitHandler.noConfusion c)
    · exact absurd h1.2.2 (fun c => ExitHandler.noConfusion c)
    · exact absurd h1.2.2 (fun c => ExitHandler.noConfusion c)
    · exact absurd h1.2.2 (fun c => ExitHandler.noConfusion c)
    · obtain ⟨-, -, hn⟩ := h1
      subst hn
      rfl
  · exact fun d => IVR_lookup_key_isSome (menu_resolve d) (menu_resolve_mem d)
  · exact fun d => IVR_lookup_key_isSome (hours_resolve d) (hours_resolve_mem d)

/-- C10 witness: the chain target of `greeting` and the resolver output
for the unmapped digit 7 are table keys. -/
theorem c10_witness :
    (IVR.lookup "menu").isSome = true ∧
    (IVR.lookup (menu_resolve (some "7"))).isSome = true :=
  ⟨c10_table_closure.2.1 "greeting" enter_greeting "menu" rfl,
   c10_table_closure.2.2.1 (some "7")⟩

end BasicIvr
